import Mathlib

/-!
Verification of the kodi-frigate addon (mqtt_listener.py, frigate_client.py,
plugin.py, screensaver.py, default.py, service.py) against its natural-language
specification.  Python code is shallowly embedded: JSON values are an inductive
type, fallible Python operations return `Except PyErr`, and the stateful
compositor / overlay loops are modelled by explicit state-passing step
functions.  Numbers are rationals (`ℚ`); Python timestamps are rationals.
-/

namespace KodiFrigate

/-- Kinds of Python runtime exception that the embedded code can raise. -/
inductive PyErr where
  | attributeError
  | typeError
  | valueError
  | keyError
  | indexError
deriving DecidableEq, Repr

/-- A decoded JSON value, as produced by Python's json.loads.
JSON numbers are modelled as rationals. -/
inductive Json where
  | null
  | bool (b : Bool)
  | num (q : ℚ)
  | str (s : String)
  | arr (elems : List Json)
  | obj (fields : List (String × Json))

/-- First value bound to a key in a Python dict (dict keys are unique;
insertion order is kept, lookup returns the stored value). -/
def lookupField : List (String × Json) → String → Option Json
  | [], _ => none
  | (k, v) :: rest, key => if k = key then some v else lookupField rest key

/-- Python `d.get(k)`: `None` (= `Json.null`) when the key is missing,
AttributeError when the receiver is not a dict. -/
def pyGet : Json → String → Except PyErr Json
  | .obj fields, k => .ok ((lookupField fields k).getD .null)
  | _, _ => .error .attributeError

/-- Python `d.get(k, default)`: the default only fills in for a missing key,
a key bound to `null` still yields `None`. -/
def pyGetD : Json → String → Json → Except PyErr Json
  | .obj fields, k, d => .ok ((lookupField fields k).getD d)
  | _, _, _ => .error .attributeError

/-- Characters of a string with leading and trailing whitespace removed;
the computable core of Python `str.strip()`. -/
def stripChars (cs : List Char) : List Char :=
  ((cs.dropWhile Char.isWhitespace).reverse.dropWhile Char.isWhitespace).reverse

/-- Python `s.strip()` on a str receiver. -/
def pyStrip (s : String) : String := ⟨stripChars s.data⟩

/-- Python `s.lower()` on a str receiver (ASCII case mapping). -/
def pyStrLower (s : String) : String := ⟨s.data.map Char.toLower⟩

/-- Python `v.lower()`: only strings have the method. -/
def pyLower : Json → Except PyErr String
  | .str s => .ok (pyStrLower s)
  | _ => .error .attributeError

/-- Python `v < q` against a float: numbers compare numerically, booleans are
0/1, anything else raises TypeError. -/
def pyLtNum : Json → ℚ → Except PyErr Bool
  | .num x, q => .ok (decide (x < q))
  | .bool b, q => .ok (decide ((if b then (1 : ℚ) else 0) < q))
  | _, _ => .error .valueError

/-- Python `'...{:.0%}...'.format(v)`: formatting a non-numeric value with a
percent format code raises. Only the raise/no-raise behaviour matters here. -/
def pyFormatPercent : Json → Except PyErr String
  | .num q => .ok (toString q)
  | .bool b => .ok (if b then "100" else "0")
  | _ => .error .valueError

/-- Python `v != 'string'` where `v` is an arbitrary decoded JSON value:
unequal types are simply unequal. -/
def jsonNeStr (j : Json) (s : String) : Bool :=
  match j with
  | .str t => t ≠ s
  | _ => true

/-- Python truthiness of a decoded JSON value. -/
def pyTruthy : Json → Bool
  | .null => false
  | .bool b => b
  | .num q => q ≠ 0
  | .str s => s ≠ ""
  | .arr xs => !xs.isEmpty
  | .obj kvs => !kvs.isEmpty

/-- Python exception propagation: run the rest of the body unless an
exception was raised. -/
def exBind {α β : Type} (x : Except PyErr α) (f : α → Except PyErr β) :
    Except PyErr β :=
  match x with
  | .error e => .error e
  | .ok a => f a

/-! ## mqtt_listener.py: FrigateMQTTListener filter state and message handler -/

/-- The filter fields of FrigateMQTTListener as stored by `set_filters`
(lists already stripped/lowercased, confidence already a 0-1 fraction). -/
structure FilterState where
  trigger_objects : List String
  min_confidence : ℚ
  trigger_on_new_only : Bool
  trigger_cameras : List String

/-- `FrigateMQTTListener.set_filters`: strips and lowercases both allow-lists,
divides the percentage by 100, `trigger_cameras=None` means the empty list. -/
def set_filters (trigger_objects : List String) (min_confidence : ℚ)
    (trigger_on_new_only : Bool) (trigger_cameras : Option (List String)) :
    FilterState :=
  { trigger_objects := trigger_objects.map (fun o => pyStrLower (pyStrip o))
    trigger_cameras := ((trigger_cameras.getD []).map (fun c => pyStrLower (pyStrip c)))
    min_confidence := min_confidence / 100
    trigger_on_new_only := trigger_on_new_only }

/-- One invocation of the registered event callback: the arguments
`(camera_name, object_type, payload)` passed by `_on_message`. -/
structure CallbackCall where
  camera : Json
  object : String
  payload : Json

/-- The camera filter of `_on_message`: when the trigger is still live and
the camera list is non-empty, evaluates `camera_name.lower()` (which raises
on a missing/null camera) and keeps the trigger live iff the lowered name is
in the list; otherwise leaves the trigger unchanged. -/
def cameraFilterStep (st : FilterState) (s1 : Bool) (camera_name : Json) :
    Except PyErr Bool :=
  if s1 && !st.trigger_cameras.isEmpty then
    match pyLower camera_name with
    | .error e => .error e
    | .ok cl => .ok (st.trigger_cameras.contains cl)
  else .ok s1

/-- The confidence filter of `_on_message`: when the trigger is still live,
compares the raw score value against the stored minimum (which raises on
non-numeric scores); keeps the trigger live iff the score is not below it. -/
def confidenceFilterStep (st : FilterState) (s3 : Bool) (confidence : Json) :
    Except PyErr Bool :=
  if s3 then
    match pyLtNum confidence st.min_confidence with
    | .error e => .error e
    | .ok lt => .ok (!lt)
  else .ok s3

/-- Body of `FrigateMQTTListener._on_message` after a successful json.loads,
up to but not including the surrounding try/except: field extraction, the
debug-log format (which can raise on weird score types), the four
short-circuiting filters, and the callback invocation.  Returns the list of
callback invocations performed. -/
def onMessageBody (st : FilterState) (cbRegistered : Bool) (payload : Json) :
    Except PyErr (List CallbackCall) :=
  exBind (pyGet payload "type") fun event_type =>
  exBind (pyGetD payload "after" (.obj [])) fun after =>
  exBind (pyGet after "camera") fun camera_name =>
  exBind (pyGetD after "label" (.str "")) fun labelRaw =>
  exBind (pyLower labelRaw) fun object_type =>
  exBind (pyGetD after "score" (.num 0)) fun confidence =>
  exBind (pyFormatPercent confidence) fun _ =>
  -- filter by event type
  let s1 : Bool := !(st.trigger_on_new_only && jsonNeStr event_type "new")
  -- filter by camera
  exBind (cameraFilterStep st s1 camera_name) fun s2 =>
  -- filter by object type
  let s3 : Bool :=
    if s2 && !st.trigger_objects.isEmpty then st.trigger_objects.contains object_type
    else s2
  -- filter by confidence
  exBind (confidenceFilterStep st s3 confidence) fun s4 =>
  .ok (if s4 && cbRegistered then
        [{ camera := camera_name, object := object_type, payload := payload }]
      else [])

/-- `FrigateMQTTListener._on_message` in full, seen from its caller (the MQTT
network loop): `none` models a payload that json.loads (or the UTF-8 decode)
rejects; every exception raised in the body is caught by the handler's two
except clauses, yielding no callback calls.  An `.error` result would model an
exception propagating to the caller. -/
def onMessage (st : FilterState) (cbRegistered : Bool) (raw : Option Json) :
    Except PyErr (List CallbackCall) :=
  match raw with
  | none => .ok []
  | some p =>
    match onMessageBody st cbRegistered p with
    | .ok cs => .ok cs
    | .error _ => .ok []

/-! The spec's DetectionEvent data model: a well-formed decoded event. -/

/-- A well-formed detection event as described by the spec's data model. -/
structure DetectionEvent where
  eventType : String
  cameraId : String
  objectLabel : String
  confidence : ℚ

/-- The MQTT payload carrying a detection event. -/
def DetectionEvent.encode (e : DetectionEvent) : Json :=
  .obj [("type", .str e.eventType),
        ("after", .obj [("camera", .str e.cameraId),
                        ("label", .str e.objectLabel),
                        ("score", .num e.confidence)])]

/-- Predicate 1: event type is 'new' whenever newEventsOnly is set. -/
def typePasses (st : FilterState) (e : DetectionEvent) : Bool :=
  !st.trigger_on_new_only || (e.eventType = "new")

/-- Predicate 2: camera is in the camera allow-list when that list is
non-empty (case-insensitive). -/
def cameraPasses (st : FilterState) (e : DetectionEvent) : Bool :=
  st.trigger_cameras.isEmpty || st.trigger_cameras.contains (pyStrLower e.cameraId)

/-- Predicate 3: label is in the object allow-list when that list is
non-empty (case-insensitive). -/
def labelPasses (st : FilterState) (e : DetectionEvent) : Bool :=
  st.trigger_objects.isEmpty || st.trigger_objects.contains (pyStrLower e.objectLabel)

/-- Predicate 4: confidence is not below the configured minimum. -/
def confidencePasses (st : FilterState) (e : DetectionEvent) : Bool :=
  decide (st.min_confidence ≤ e.confidence)

/-! ## frigate_client.py: FrigateClient.get_cameras -/

/-- Substring test on character lists: the computable core of Python's
`in` on strings. -/
def listContainsSub (pat : List Char) : List Char → Bool
  | [] => pat.isEmpty
  | c :: cs => List.isPrefixOf pat (c :: cs) || listContainsSub pat cs

/-- Python `needle in v` for a string needle: dict → key membership,
str → substring, list → element equality (a string equals only equal
strings), anything else raises TypeError. -/
def pyContains (needle : String) : Json → Except PyErr Bool
  | .obj kvs => .ok (kvs.any (fun kv => kv.1 = needle))
  | .str s => .ok (listContainsSub needle.data s.data)
  | .arr xs => .ok (xs.any (fun j => match j with | .str t => t = needle | _ => false))
  | _ => .error .typeError

/-- Python `v[k]` for a string key: dict → lookup (KeyError when missing),
str/list → TypeError (indices must be integers), else TypeError. -/
def pySubscript (j : Json) (k : String) : Except PyErr Json :=
  match j with
  | .obj kvs =>
    match lookupField kvs k with
    | some v => .ok v
    | none => .error .keyError
  | _ => .error .typeError

/-- Python `v.items()`: only dicts have it. -/
def pyItems : Json → Except PyErr (List (String × Json))
  | .obj kvs => .ok kvs
  | _ => .error .attributeError

/-- Python `len(v)`: only sized values have it. -/
def pyLen : Json → Except PyErr Nat
  | .str s => .ok s.length
  | .arr xs => .ok xs.length
  | .obj kvs => .ok kvs.length
  | _ => .error .typeError

/-- Python `v[0]`: first element of a list; a one-char string of a string;
KeyError on a dict (0 is not a string key); TypeError otherwise. -/
def pyIndexZero : Json → Except PyErr Json
  | .arr (x :: _) => .ok x
  | .arr [] => .error .indexError
  | .str s =>
    match s.data with
    | c :: _ => .ok (.str ⟨[c]⟩)
    | [] => .error .indexError
  | .obj _ => .error .keyError
  | _ => .error .typeError

/-- The camera-info dict built by `FrigateClient.get_cameras` for one camera. -/
structure CameraInfo where
  name : String
  enabled : Json
  mjpeg_url : String
  snapshot_url : String
  rtsp_url : Option Json

/-- The `if 'ffmpeg' in camera_config and 'inputs' in camera_config['ffmpeg']`
block of `get_cameras`: the value stored under `rtsp_url` (none when any of
the guards fails). -/
def rtspFromConfig (camera_config : Json) : Except PyErr (Option Json) :=
  exBind (pyContains "ffmpeg" camera_config) fun hasFfmpeg =>
  if hasFfmpeg then
    exBind (pySubscript camera_config "ffmpeg") fun ff =>
    exBind (pyContains "inputs" ff) fun hasInputs =>
    if hasInputs then
      exBind (pySubscript ff "inputs") fun inputs =>
      -- `if inputs and len(inputs) > 0`
      if pyTruthy inputs then
        exBind (pyLen inputs) fun n =>
        if 0 < n then
          exBind (pyIndexZero inputs) fun first_input =>
          exBind (pyContains "path" first_input) fun hasPath =>
          if hasPath then
            exBind (pySubscript first_input "path") fun p =>
            .ok (some p)
          else .ok none
        else .ok none
      else .ok none
    else .ok none
  else .ok none

/-- The body of `get_cameras`'s per-camera loop iteration: reads `enabled`
(defaulting to true), builds the info dict with the two derived URLs, and
copies the first ffmpeg input's `path` into `rtsp_url` when present. -/
def processCamera (base_url camera_name : String) (camera_config : Json) :
    Except PyErr CameraInfo :=
  exBind (pyGetD camera_config "enabled" (.bool true)) fun enabled =>
  exBind (rtspFromConfig camera_config) fun rtsp =>
  .ok { name := camera_name
        enabled := enabled
        mjpeg_url := base_url ++ "/api/" ++ camera_name
        snapshot_url := base_url ++ "/api/" ++ camera_name ++ "/latest.jpg"
        rtsp_url := rtsp }

/-- The `for camera_name, camera_config in config['cameras'].items()` loop of
`get_cameras`, building the result dict in iteration order. -/
def processAll (base_url : String) :
    List (String × Json) → Except PyErr (List (String × CameraInfo))
  | [] => .ok []
  | (name, cc) :: rest =>
    exBind (processCamera base_url name cc) fun info =>
    exBind (processAll base_url rest) fun tail =>
    .ok ((name, info) :: tail)

/-- `FrigateClient.get_cameras`: `config` is the result of `get_config()`
(`none` when `_make_request` caught an HTTP/URL/other error and returned
None). Mirrors `if not config or 'cameras' not in config: return {}` with
Python's short-circuit `or`, then the per-camera loop. -/
def get_cameras (base_url : String) (config : Option Json) :
    Except PyErr (List (String × CameraInfo)) :=
  match config with
  | none => .ok []
  | some cfg =>
    if !pyTruthy cfg then .ok []
    else
      exBind (pyContains "cameras" cfg) fun hasCams =>
      if !hasCams then .ok []
      else
        exBind (pySubscript cfg "cameras") fun camsJson =>
        exBind (pyItems camsJson) fun items =>
        processAll base_url items

/-! ## URL rewriting: plugin.play_camera and
FrigateScreensaver._get_stream_url -/

/-- One step of string replacement: fuel-indexed so that the kernel can
evaluate it. Replaces non-overlapping occurrences of `pat` left to right. -/
def replaceGo (pat repl : List Char) : Nat → List Char → List Char
  | _, [] => []
  | 0, cs => cs
  | n + 1, c :: cs =>
    if pat ≠ [] ∧ List.isPrefixOf pat (c :: cs) then
      repl ++ replaceGo pat repl n (List.drop (pat.length - 1) cs)
    else
      c :: replaceGo pat repl n cs

/-- Python `s.replace(pat, repl)` for a non-empty pattern. -/
def pyReplace (s pat repl : String) : String :=
  ⟨replaceGo pat.data repl.data s.data.length s.data⟩

/-- Locate the first occurrence of `sep` and split around it,
fuel-indexed. -/
def splitOnceGo (sep : List Char) : Nat → List Char → Option (List Char × List Char)
  | _, [] => none
  | 0, _ => none
  | n + 1, c :: cs =>
    if List.isPrefixOf sep (c :: cs) then
      some ([], List.drop (sep.length - 1) cs)
    else
      match splitOnceGo sep n cs with
      | some (pre, post) => some (c :: pre, post)
      | none => none

/-- Split a string at the first occurrence of a non-empty separator. -/
def splitOnce (s sep : String) : Option (String × String) :=
  match splitOnceGo sep.data s.data.length s.data with
  | some (pre, post) => some (⟨pre⟩, ⟨post⟩)
  | none => none

/-- `urlparse(url).hostname` for the `scheme://[user@]host[:port][/path...]`
URL shapes this addon configures: the authority runs from after `://` to the
first `/`, `?` or `#`; userinfo before the last `@` is dropped, a `:port`
suffix is dropped, and the hostname is lowercased.  `none` when the URL has
no `://` or an empty host, matching urlparse's `hostname is None`. -/
def parsedHostname (url : String) : Option String :=
  match splitOnce url "://" with
  | none => none
  | some (_, rest) =>
    let netloc := rest.data.takeWhile (fun c => c ≠ '/' ∧ c ≠ '?' ∧ c ≠ '#')
    let afterUser := (netloc.reverse.takeWhile (fun c => c ≠ '@')).reverse
    let host := afterUser.takeWhile (fun c => c ≠ ':')
    if host.isEmpty then none else some (pyStrLower ⟨host⟩)

/-- The localhost-rewrite block shared by `play_camera` and
`_get_stream_url`: with a parsed hostname, replace every `127.0.0.1` and
then every `localhost`; with no hostname, keep the URL as is. -/
def rewriteLoopback (frigate_url u : String) : String :=
  match parsedHostname frigate_url with
  | some h => pyReplace (pyReplace u "127.0.0.1" h) "localhost" h
  | none => u

/-- The stream-URL computation of `plugin.play_camera` (lines 143-193):
prefer a present truthy `rtsp_url`, rewriting loopback hosts to the Frigate
hostname, else fall back to `mjpeg_url`; `none` models resolving the item as
unplayable. A non-string truthy rtsp value makes the `in` test raise, which
`play_camera`'s outer `except Exception` turns into a failed resolution. -/
def play_camera_stream_url (frigate_url : String) (rtsp_url : Option Json)
    (mjpeg_url : String) : Except PyErr (Option String) :=
  let fallback : Option String := if mjpeg_url ≠ "" then some mjpeg_url else none
  match rtsp_url with
  | some j =>
    if pyTruthy j then
      match j with
      | .str u =>
        if listContainsSub "127.0.0.1".data u.data ∨
            listContainsSub "localhost".data u.data then
          .ok (some (rewriteLoopback frigate_url u))
        else .ok (some u)
      | _ => .error .typeError
    else .ok fallback
  | none => .ok fallback

/-- `FrigateScreensaver._get_stream_url` (lines 191-217): like the plugin
rewrite but rtsp comes from `.get('rtsp_url', '')`, the whole rewrite block
is under a bare `except: pass` (so a failed replace leaves the URL as-is),
and the fallback is `.get('mjpeg_url', '')`. -/
def screensaver_stream_url (frigate_url : String) (rtsp_url : Option Json)
    (mjpeg_url : Option Json) : Except PyErr Json :=
  let stream0 : Json := rtsp_url.getD (.str "")
  exBind
    (if pyTruthy stream0 then
      exBind (pyContains "127.0.0.1" stream0) fun c1 =>
      exBind (if c1 then .ok true else pyContains "localhost" stream0) fun c =>
      if c then
        -- try: rewrite; except: pass
        match stream0 with
        | .str u => .ok (Json.str (rewriteLoopback frigate_url u))
        | _ => .ok stream0
      else .ok stream0
    else .ok stream0) fun streamUrl =>
  if !pyTruthy streamUrl then .ok (mjpeg_url.getD (.str ""))
  else .ok streamUrl

/-! ## screensaver.py: FrigateScreensaver grid layout and resource lifecycle -/

/-- The grid shape `(grid_cols, grid_rows)` chosen by `_start_ffmpeg`
(lines 271-280) from `self.num_cameras`. -/
def gridShape (num_cameras : Nat) : Nat × Nat :=
  if num_cameras = 1 then (1, 1)
  else if num_cameras = 2 then (2, 1)
  else if num_cameras = 3 then (3, 1)
  else if num_cameras = 4 then (2, 2)
  else (2, 2)

/-- The `(cell_width, cell_height)` used for each scaled input
(lines 329-330): integer division of the 1920x1080 output by the grid. -/
def cellSize (num_cameras : Nat) : Nat × Nat :=
  (1920 / (gridShape num_cameras).1, 1080 / (gridShape num_cameras).2)

/-- `init_screensaver` maps the camera-count setting 0..3 to 1..4 cameras
per view (line 67). -/
def numCamerasOfSetting (camera_count_setting : Nat) : Nat :=
  camera_count_setting + 1

/-- Resource-relevant state of one FrigateScreensaver instance:
the two object attributes and an audit count of the OS resources this
instance has created and not yet destroyed. -/
structure CompState where
  procRef : Bool  -- `self.ffmpeg_process is not None`
  pathSet : Bool  -- `self.pipe_path is not None`
  procs : Nat     -- live encoder (ffmpeg) processes
  pipes : Nat     -- named pipes existing at the transport path
deriving Repr

/-- A state is well formed when the attribute mirrors the single live
process and at most one pipe file exists. -/
def CompState.WF (s : CompState) : Prop :=
  s.procs = (if s.procRef then 1 else 0) ∧ s.pipes ≤ 1

instance (s : CompState) : Decidable s.WF := by
  unfold CompState.WF
  infer_instance

/-- `_stop_ffmpeg` lines 435-442: kill the referenced encoder process and
drop the reference. -/
def killStep (s : CompState) : CompState :=
  if s.procRef then { s with procRef := false, procs := s.procs - 1 } else s

/-- `_stop_ffmpeg` lines 445-451: remove the pipe when the path attribute is
set and the file exists; a failed remove is swallowed and leaves both. -/
def stopRemoveStep (removeOk : Bool) (s : CompState) : CompState :=
  if s.pathSet && decide (0 < s.pipes) then
    if removeOk then { s with pathSet := false, pipes := s.pipes - 1 } else s
  else s

/-- `_stop_ffmpeg` in full (player stop does not touch these resources). -/
def stopFfmpeg (removeOk : Bool) (s : CompState) : CompState :=
  stopRemoveStep removeOk (killStep s)

/-- The states passed through while `_stop_ffmpeg` runs. -/
def stopFfmpegTrace (removeOk : Bool) (s : CompState) : List CompState :=
  [s, killStep s, stopFfmpeg removeOk s]

/-- `self.pipe_path = os.path.join(...)` (line 295). -/
def setPathStep (s : CompState) : CompState := { s with pathSet := true }

/-- Lines 299-303: remove a pre-existing file at the pipe path; a failed
remove is swallowed. -/
def removePrevStep (removeOk : Bool) (s : CompState) : CompState :=
  if 0 < s.pipes then
    if removeOk then { s with pipes := s.pipes - 1 } else s
  else s

/-- `_start_ffmpeg` (lines 250-394) as a micro-step trace.  The flags fix
the environment's branch outcomes: `camsOk` = at least one camera has a
stream URL, `mkfifoOk`/`popenOk` = those calls succeed (mkfifo necessarily
fails if a file still occupies the path).  Every list element is a state the
instance actually passes through, in order. -/
def startFfmpegTrace (stopRemoveOk camsOk removePrevOk mkfifoOk popenOk : Bool)
    (s : CompState) : List CompState :=
  -- `self._stop_ffmpeg()` first, unconditionally (line 253)
  let base := stopFfmpegTrace stopRemoveOk s
  let sStop := stopFfmpeg stopRemoveOk s
  if !camsOk then base  -- `if not cameras_to_display: return` (line 266)
  else
    let s1 := setPathStep sStop
    let s2 := removePrevStep removePrevOk s1
    if 0 < s2.pipes then base ++ [s1, s2]  -- mkfifo EEXIST, caught, return
    else if !mkfifoOk then base ++ [s1, s2]  -- mkfifo failed, caught, return
    else
      let s3 := { s2 with pipes := s2.pipes + 1 }  -- os.mkfifo (line 307)
      if popenOk then
        -- subprocess.Popen succeeded (line 379)
        let s4 := { s3 with procRef := true, procs := s3.procs + 1 }
        base ++ [s1, s2, s3, s4]
      else
        -- except: `self.ffmpeg_process = None`, then remove the pipe
        let s4 := { s3 with procRef := false }
        let s5 := { s4 with pipes := s4.pipes - 1 }
        base ++ [s1, s2, s3, s4, s5]

/-- The state after `_start_ffmpeg` returns. -/
def startFfmpeg (stopRemoveOk camsOk removePrevOk mkfifoOk popenOk : Bool)
    (s : CompState) : CompState :=
  (startFfmpegTrace stopRemoveOk camsOk removePrevOk mkfifoOk popenOk s).getLastD s

/-- `init_screensaver` lines 110-117: one camera per view plays the stream
directly (`_play_single_camera` spawns no encoder and makes no pipe), more
than one goes through `_start_ffmpeg`. -/
def initScreensaverPlayback (num_cameras : Nat)
    (stopRemoveOk camsOk removePrevOk mkfifoOk popenOk : Bool)
    (s : CompState) : List CompState :=
  if num_cameras = 1 then [s]
  else startFfmpegTrace stopRemoveOk camsOk removePrevOk mkfifoOk popenOk s

/-! ## default.py: display trigger entry point and overlay run loop -/

/-- Cross-process overlay state for one camera id: live sessions, the
heartbeat lock file `overlay_active_<camera>.lock`, and a count of heartbeat
writes (creations and refreshes). -/
structure OverlaySessions where
  active : Nat
  lockPresent : Bool
  writes : Nat
deriving DecidableEq, Repr

/-- One invocation of the display trigger (`default.py` `__main__`,
lines 283-318) for a known camera within the freshness window and with no
intervening termination: an existing lock file is overwritten (a refresh)
and the process exits without a new session; otherwise
`CamPreviewDialog.start` writes the lock and a new session begins.
`lockWriteOk`/`startWriteOk` are the outcomes of the two file writes. -/
def requestDisplay (lockWriteOk startWriteOk : Bool) (s : OverlaySessions) :
    OverlaySessions :=
  if s.lockPresent then
    if lockWriteOk then { s with writes := s.writes + 1 }
    else  -- failed refresh falls through and creates a new overlay
      { active := s.active + 1, lockPresent := startWriteOk,
        writes := s.writes + (if startWriteOk then 1 else 0) }
  else
    { active := s.active + 1,
      lockPresent := startWriteOk ∨ s.lockPresent,
      writes := s.writes + (if startWriteOk then 1 else 0) }

/-- The display trigger's process exit code (`default.py` lines 270-328):
1 without a camera argument; 0 after a successful heartbeat refresh of an
existing overlay (the script exits before discovery); 1 when the camera is
not in the discovered set; otherwise the script runs the session and falls
off the end — exit code 0 — whether the session completed or the
try/except swallowed an error. -/
def displayTriggerExitCode (cameraArg : Option String)
    (lockExists lockWriteOk : Bool) (cameras : List String) : Nat :=
  match cameraArg with
  | none => 1
  | some cam =>
    if lockExists && lockWriteOk then 0
    else if !cameras.contains cam then 1
    else 0

/-- What one iteration of `CamPreviewDialog.start`'s lifetime loop observes:
the `isRunning` flag and the heartbeat file's timestamp (`none` when the
file is missing or unreadable — the except clause swallows the error). -/
structure LoopObs where
  running : Bool
  lock : Option ℚ

/-- Mutable locals of the lifetime loop. -/
structure LoopState where
  startTime : ℚ
  lastCheck : ℚ

/-- Why the lifetime loop exited. -/
inductive LoopExit where
  | expired
  | stopped
deriving DecidableEq, Repr

/-- The `while` condition (line 188): run forever unless autoClose is on and
the elapsed milliseconds exceed the duration. -/
def loopCond (autoClose : Bool) (duration now startTime : ℚ) : Prop :=
  autoClose = false ∨ (now - startTime) * 1000 ≤ duration

instance (a : Bool) (d n st : ℚ) : Decidable (loopCond a d n st) := by
  unfold loopCond
  infer_instance

/-- The once-per-second lock check (lines 193-205): when a second has passed
since the last check, refresh `last_check` and reset the elapsed-time origin
to `now` iff the heartbeat timestamp is less than 2 seconds old. -/
def checkStep (now : ℚ) (o : LoopObs) (st : LoopState) : LoopState :=
  if 1 ≤ now - st.lastCheck then
    let st1 : LoopState := { st with lastCheck := now }
    match o.lock with
    | some lockTime => if now - lockTime < 2 then { st1 with startTime := now } else st1
    | none => st1
  else st

/-- One iteration of the lifetime loop at wall time `now`. -/
inductive LoopStepResult where
  | exit (r : LoopExit)
  | next (st : LoopState)

def loopStep (autoClose : Bool) (duration now : ℚ) (o : LoopObs)
    (st : LoopState) : LoopStepResult :=
  if ¬loopCond autoClose duration now st.startTime then .exit .expired
  else if o.running = false then .exit .stopped
  else .next (checkStep now o st)

/-- How the loop ran out: still running when the fuel ended, or exited at
iteration `k` for reason `r`. -/
inductive RunResult where
  | running (st : LoopState)
  | exited (k : Nat) (r : LoopExit)

/-- Run the lifetime loop; iteration `k` happens at wall time `t0 + k/2`
(the loop sleeps 500 ms per iteration), with `obs` the environment. -/
def runLoop (autoClose : Bool) (duration t0 : ℚ) (obs : Nat → LoopObs) :
    Nat → Nat → LoopState → RunResult
  | 0, _, st => .running st
  | fuel + 1, k, st =>
    match loopStep autoClose duration (t0 + k / 2) (obs k) st with
    | .exit r => .exited k r
    | .next st1 => runLoop autoClose duration t0 obs fuel (k + 1) st1

/-- Entry to the loop at session start (lines 185-186): both time locals are
initialised to the current time. -/
def startRunLoop (autoClose : Bool) (duration t0 : ℚ) (obs : Nat → LoopObs)
    (fuel : Nat) : RunResult :=
  runLoop autoClose duration t0 obs fuel 0 { startTime := t0, lastCheck := t0 }

/-! ## service.py: FrigateService settings reconciliation -/

/-- The settings snapshot polled by `load_settings` each cycle. -/
structure Settings where
  frigate_url : String
  frigate_username : String
  frigate_password : String
  mqtt_host : String
  mqtt_port : Nat
  mqtt_username : String
  mqtt_password : String
  mqtt_topic_prefix : String
  trigger_objects : String
  min_confidence : Nat
  trigger_on_new_only : Bool
  trigger_cameras : String
deriving DecidableEq, Repr

/-- `_mqtt_connection_changed`: any of the five broker keys differs. -/
def mqttConnectionChanged (o n : Settings) : Bool :=
  decide (o.mqtt_host ≠ n.mqtt_host) || decide (o.mqtt_port ≠ n.mqtt_port) ||
  decide (o.mqtt_username ≠ n.mqtt_username) ||
  decide (o.mqtt_password ≠ n.mqtt_password) ||
  decide (o.mqtt_topic_prefix ≠ n.mqtt_topic_prefix)

/-- `_filter_settings_changed`: any of the four filter keys differs. -/
def filterSettingsChanged (o n : Settings) : Bool :=
  decide (o.trigger_objects ≠ n.trigger_objects) ||
  decide (o.min_confidence ≠ n.min_confidence) ||
  decide (o.trigger_on_new_only ≠ n.trigger_on_new_only) ||
  decide (o.trigger_cameras ≠ n.trigger_cameras)

/-- `_frigate_settings_changed`: any of the three discovery keys differs. -/
def frigateSettingsChanged (o n : Settings) : Bool :=
  decide (o.frigate_url ≠ n.frigate_url) ||
  decide (o.frigate_username ≠ n.frigate_username) ||
  decide (o.frigate_password ≠ n.frigate_password)

/-- `_settings_changed`: any relevant key differs. -/
def settingsChanged (o n : Settings) : Bool :=
  mqttConnectionChanged o n || filterSettingsChanged o n || frigateSettingsChanged o n

/-- Split a string at commas, the computable core of Python `s.split(',')`. -/
def splitCommaGo (acc : List Char) : List Char → List (List Char)
  | [] => [acc.reverse]
  | c :: cs =>
    if c = ',' then acc.reverse :: splitCommaGo [] cs
    else splitCommaGo (c :: acc) cs

/-- Python `s.split(',')`. -/
def splitOnComma (s : String) : List String :=
  (splitCommaGo [] s.data).map (fun cs => ⟨cs⟩)

/-- `[x.strip() for x in s.split(',') if x.strip()]` — the parsing applied
to both `trigger_objects` and `trigger_cameras` in `service.py`. -/
def parseTriggerList (s : String) : List String :=
  ((splitOnComma s).filter (fun x => pyStrip x ≠ "")).map pyStrip

/-- An MQTT listener object as the service sees it; `gen` models object
identity (the creation counter). -/
structure Listener where
  gen : Nat
  host : String
  port : Nat
  username : Option String
  password : Option String
  topic_prefix : String
  filters : FilterState

/-- The filter state `initialize_mqtt_listener` / the hot-swap branch pass
to `set_filters`. -/
def filtersOfSettings (st : Settings) : FilterState :=
  set_filters (parseTriggerList st.trigger_objects) st.min_confidence
    st.trigger_on_new_only (some (parseTriggerList st.trigger_cameras))

/-- `initialize_mqtt_listener`: a fresh FrigateMQTTListener built from the
current settings (empty credential strings become None), with the event
callback and filters installed. -/
def initListener (gen : Nat) (st : Settings) : Listener :=
  { gen := gen
    host := st.mqtt_host
    port := st.mqtt_port
    username := if st.mqtt_username ≠ "" then some st.mqtt_username else none
    password := if st.mqtt_password ≠ "" then some st.mqtt_password else none
    topic_prefix := st.mqtt_topic_prefix
    filters := filtersOfSettings st }

/-- Externally visible MQTT lifecycle actions of one reconciliation pass. -/
inductive MqttAction where
  | stopListener (gen : Nat)
  | createListener (gen : Nat)
  | setFiltersOn (gen : Nat)
deriving DecidableEq, Repr

/-- The MQTT part of one pass of the service loop's settings branch
(`service.py` lines 211-256): connection keys changed → stop the existing
listener and, when an MQTT host is configured, create a fresh one; filter
keys changed alone with a live listener → `set_filters` in place; nothing
relevant changed → leave everything untouched. -/
def reconcileMqtt (old new : Settings) (listener : Option Listener)
    (nextGen : Nat) : Option Listener × List MqttAction :=
  if settingsChanged old new then
    if mqttConnectionChanged old new then
      let stopActs : List MqttAction :=
        match listener with
        | some l => [.stopListener l.gen]
        | none => []
      if new.mqtt_host ≠ "" then
        (some (initListener nextGen new), stopActs ++ [.createListener nextGen])
      else (none, stopActs)
    else
      match listener with
      | some l =>
        if filterSettingsChanged old new then
          (some { l with filters := filtersOfSettings new }, [.setFiltersOn l.gen])
        else (some l, [])
      | none => (none, [])
  else (listener, [])

/-! ## Theorems -/

/-- `List.all id` is invariant under permutation of the evaluated predicates. -/
lemma perm_all_id {l₁ l₂ : List Bool} (h : l₁.Perm l₂) : l₁.all id = l₂.all id := by
  induction h with
  | nil => rfl
  | cons x _ ih => simp [List.all_cons, ih]
  | swap x y l => cases x <;> cases y <;> simp [List.all_cons]
  | trans _ _ ih₁ ih₂ => rw [ih₁, ih₂]

/-- A bound `exBind` yields `.ok` exactly when both stages do. -/
lemma exBind_ok {α β : Type} {x : Except PyErr α} {f : α → Except PyErr β}
    {b : β} : exBind x f = .ok b ↔ ∃ a, x = .ok a ∧ f a = .ok b := by
  cases x <;> simp [exBind]

/-- `List.all id` of a four-element list is the conjunction of the four. -/
lemma all_four (a b c d : Bool) : [a, b, c, d].all id = (a && b && c && d) := by
  cases a <;> cases b <;> cases c <;> cases d <;> rfl

/-- The body of the message handler never performs more than one callback
invocation. -/
lemma onMessageBody_ok_length (st : FilterState) (cb : Bool) (p : Json)
    (cs : List CallbackCall) (h : onMessageBody st cb p = .ok cs) :
    cs.length ≤ 1 := by
  unfold onMessageBody at h
  simp only [exBind_ok] at h
  obtain ⟨et, -, after, -, cam, -, lbl, -, obj, -, conf, -, fmt, -, s2, -, s4, -, h⟩ := h
  rw [Except.ok.injEq] at h
  subst h
  split <;> simp

set_option maxHeartbeats 1600000 in
/-- C1: for every filter configuration and well-formed decoded detection
event, `_on_message` with a registered callback invokes the callback exactly
once with `(cameraId, objectLabel, rawPayload)` iff all four filter predicates
hold (event type, camera allow-list, object allow-list, confidence), and zero
times otherwise; and the accept/reject outcome — the conjunction of the four
predicates — is invariant under any reordering of the predicate list. -/
theorem dispatcher_filters_pure_conjunction (st : FilterState) (e : DetectionEvent) :
    (onMessage st true (some e.encode) =
      .ok (if typePasses st e && cameraPasses st e && labelPasses st e &&
              confidencePasses st e then
             [{ camera := .str e.cameraId, object := pyStrLower e.objectLabel,
                payload := e.encode }]
           else [])) ∧
    (∀ l, List.Perm [typePasses st e, cameraPasses st e, labelPasses st e,
        confidencePasses st e] l →
      l.all id = (typePasses st e && cameraPasses st e && labelPasses st e &&
        confidencePasses st e)) := by
  constructor
  · simp [onMessage, onMessageBody, exBind, cameraFilterStep, confidenceFilterStep,
      DetectionEvent.encode, pyGet, pyGetD,
      lookupField, pyLower, pyFormatPercent, pyLtNum, jsonNeStr,
      typePasses, cameraPasses, labelPasses, confidencePasses]
    by_cases h1 : st.trigger_on_new_only = false <;>
    by_cases h2 : e.eventType = "new" <;>
    by_cases h3 : st.trigger_cameras = [] <;>
    by_cases h4 : pyStrLower e.cameraId ∈ st.trigger_cameras <;>
    by_cases h5 : st.trigger_objects = [] <;>
    by_cases h6 : pyStrLower e.objectLabel ∈ st.trigger_objects <;>
    by_cases h7 : e.confidence < st.min_confidence <;>
    simp_all [not_lt]
  · intro l hl
    rw [perm_all_id hl.symm, all_four]

/-- C1 witness: the spec's scenario — event type `new`, camera `front_door`,
label `person`, score 0.92, filters objects `person,car`, min confidence 70%,
newOnly true — is accepted and the callback fires once with the event's
camera, label and payload; and a concrete reordering of the four predicates
evaluates to the same conjunction. -/
theorem dispatcher_filters_pure_conjunction_witness :
    (onMessage (set_filters ["person", "car"] 70 true none) true
        (some (DetectionEvent.encode ⟨"new", "front_door", "person", 92/100⟩)) =
      .ok [{ camera := .str "front_door", object := "person",
             payload := DetectionEvent.encode ⟨"new", "front_door", "person", 92/100⟩ }]) ∧
    ([cameraPasses (set_filters ["person", "car"] 70 true none)
        ⟨"new", "front_door", "person", 92/100⟩,
      typePasses (set_filters ["person", "car"] 70 true none)
        ⟨"new", "front_door", "person", 92/100⟩,
      labelPasses (set_filters ["person", "car"] 70 true none)
        ⟨"new", "front_door", "person", 92/100⟩,
      confidencePasses (set_filters ["person", "car"] 70 true none)
        ⟨"new", "front_door", "person", 92/100⟩].all id = true) := by
  have h := dispatcher_filters_pure_conjunction
    (set_filters ["person", "car"] 70 true none) ⟨"new", "front_door", "person", 92/100⟩
  have hT : typePasses (set_filters ["person", "car"] 70 true none)
      ⟨"new", "front_door", "person", 92/100⟩ = true := by
    simp [typePasses, set_filters]
  have hC : cameraPasses (set_filters ["person", "car"] 70 true none)
      ⟨"new", "front_door", "person", 92/100⟩ = true := by
    simp [cameraPasses, set_filters]
  have hL : labelPasses (set_filters ["person", "car"] 70 true none)
      ⟨"new", "front_door", "person", 92/100⟩ = true := by
    decide
  have hConf : confidencePasses (set_filters ["person", "car"] 70 true none)
      ⟨"new", "front_door", "person", 92/100⟩ = true := by
    simp only [confidencePasses, set_filters, decide_eq_true_eq]
    norm_num
  constructor
  · rw [h.1, hT, hC, hL, hConf]
    rfl
  · have hp := h.2 _ (List.Perm.swap _ _ _)
    rw [hp, hT, hC, hL, hConf]
    rfl

/-- C10: for every filter configuration and every incoming message payload —
including undecodable bytes, payloads with no `after` object, or a null camera
with a non-empty camera allow-list — `_on_message` returns normally (never
propagates an exception to the MQTT loop) and invokes the callback at most
once. -/
theorem mqtt_handler_total_at_most_once (st : FilterState) (cb : Bool)
    (raw : Option Json) :
    ∃ cs, onMessage st cb raw = .ok cs ∧ cs.length ≤ 1 := by
  unfold onMessage
  cases raw with
  | none => exact ⟨[], rfl, by simp⟩
  | some p =>
    cases h : onMessageBody st cb p with
    | ok cs => exact ⟨cs, by simp [h], onMessageBody_ok_length st cb p cs h⟩
    | error e => exact ⟨[], by simp [h], by simp⟩

/-- A successful key lookup makes the Python `in` membership test true. -/
lemma lookup_any_eq_true {kvs : List (String × Json)} {k : String} {v : Json}
    (h : lookupField kvs k = some v) :
    (kvs.any fun kv => kv.1 = k) = true := by
  induction kvs with
  | nil => simp [lookupField] at h
  | cons hd tl ih =>
    obtain ⟨a, b⟩ := hd
    by_cases hak : a = k <;> simp_all [lookupField]

/-- The fields of a successfully built camera-info record. -/
lemma processCamera_parts {base name : String} {cc : Json} {info : CameraInfo}
    (hp : processCamera base name cc = .ok info) :
    ∃ en rt, pyGetD cc "enabled" (.bool true) = .ok en ∧
      rtspFromConfig cc = .ok rt ∧ info.enabled = en ∧ info.rtsp_url = rt := by
  unfold processCamera at hp
  simp only [exBind_ok] at hp
  obtain ⟨en, he, rt, hr, hinfo⟩ := hp
  rw [Except.ok.injEq] at hinfo
  exact ⟨en, rt, he, hr, by rw [← hinfo], by rw [← hinfo]⟩

/-- C8 counterexample: a discovery response whose parsed JSON is the number 5
certainly lacks a `cameras` mapping, yet `get_cameras` raises a TypeError
(at `'cameras' not in config`) instead of returning the empty mapping. -/
theorem get_cameras_nonobject_raises :
    get_cameras "http://nvr.local:5000" (some (.num 5)) = .error .typeError ∧
    get_cameras "http://nvr.local:5000" (some (.num 5)) ≠ .ok [] := by
  refine ⟨rfl, ?_⟩
  simp [get_cameras, pyTruthy, pyContains, exBind]

/-- C8 (amended): when the request fails (`config = none`), or the response
is falsy, or the response is an object / string / array that does not
contain `cameras` under Python's `in` for its type (key membership,
substring, element membership), `get_cameras` returns the empty mapping
without raising; when the response is an object whose `cameras` value is an
object, the result is the per-entry loop over those entries, and for each
object-shaped entry the `enabled` flag defaults to true when absent and
`rtsp_url` is the first ffmpeg input's `path` when the ffmpeg/inputs/path
shape is present (and absent when there is no `ffmpeg` key). -/
theorem get_cameras_tolerant_defaults (base : String) :
    (get_cameras base none = .ok []) ∧
    (∀ cfg, pyTruthy cfg = false → get_cameras base (some cfg) = .ok []) ∧
    (∀ kvs : List (String × Json), (kvs.any fun kv => kv.1 = "cameras") = false →
      get_cameras base (some (.obj kvs)) = .ok []) ∧
    (∀ s : String, listContainsSub "cameras".data s.data = false →
      get_cameras base (some (.str s)) = .ok []) ∧
    (∀ xs : List Json,
      (xs.any fun j => match j with | .str t => t = "cameras" | _ => false) = false →
      get_cameras base (some (.arr xs)) = .ok []) ∧
    (∀ kvs cams, lookupField kvs "cameras" = some (.obj cams) →
      get_cameras base (some (.obj kvs)) = processAll base cams) ∧
    (∀ name kvs info, lookupField kvs "enabled" = none →
      processCamera base name (.obj kvs) = .ok info → info.enabled = .bool true) ∧
    (∀ name kvs info, (kvs.any fun kv => kv.1 = "ffmpeg") = false →
      processCamera base name (.obj kvs) = .ok info → info.rtsp_url = none) ∧
    (∀ name kvs ffkvs ikvs rest p info,
      lookupField kvs "ffmpeg" = some (.obj ffkvs) →
      lookupField ffkvs "inputs" = some (.arr (.obj ikvs :: rest)) →
      lookupField ikvs "path" = some p →
      processCamera base name (.obj kvs) = .ok info → info.rtsp_url = some p) := by
  refine ⟨rfl, ?_, ?_, ?_, ?_, ?_, ?_, ?_, ?_⟩
  · intro cfg h
    simp [get_cameras, h]
  · intro kvs h
    simp [get_cameras, pyTruthy, pyContains, exBind, h]
  · intro s hs
    by_cases h0 : s = ""
    · subst h0
      simp [get_cameras, pyTruthy]
    · simp [get_cameras, pyTruthy, pyContains, exBind, hs, h0]
  · intro xs hx
    cases xs with
    | nil => simp [get_cameras, pyTruthy]
    | cons x tl =>
      simp only [List.any_cons, Bool.or_eq_false_iff] at hx
      simp [get_cameras, pyTruthy, pyContains, exBind, hx.1, hx.2]
  · intro kvs cams h
    cases kvs with
    | nil => simp [lookupField] at h
    | cons hd tl =>
      simp [get_cameras, pyTruthy, pyContains, pySubscript, pyItems, exBind,
        lookup_any_eq_true h, h]
  · intro name kvs info h hp
    obtain ⟨en, rt, he, -, hen, -⟩ := processCamera_parts hp
    rw [hen]
    simp [pyGetD, h] at he
    exact he.symm
  · intro name kvs info h hp
    obtain ⟨en, rt, -, hr, -, hrt⟩ := processCamera_parts hp
    rw [hrt]
    simp [rtspFromConfig, pyContains, exBind, h] at hr
    exact hr.symm
  · intro name kvs ffkvs ikvs rest p info h1 h2 h3 hp
    obtain ⟨en, rt, -, hr, -, hrt⟩ := processCamera_parts hp
    rw [hrt]
    simp [rtspFromConfig, pyContains, pySubscript, pyLen, pyIndexZero, pyTruthy,
      exBind, lookup_any_eq_true h1, lookup_any_eq_true h2, lookup_any_eq_true h3,
      h1, h2, h3] at hr
    exact hr.symm

/-- C8 witness: on the concrete object response
`(cameras := (front_door := (ffmpeg := (inputs := [(path := rtsp url)]))))`
the claim's clauses evaluate as proved: a `none` config and a camera-less
object give the empty mapping, and the front_door entry gets
`enabled = true` and the input path as its `rtsp_url`. -/
theorem get_cameras_tolerant_defaults_witness :
    (get_cameras "http://nvr.local:5000" none = .ok []) ∧
    (get_cameras "http://nvr.local:5000" (some (.obj [("version", .str "0.12")])) =
      .ok []) ∧
    (get_cameras "http://nvr.local:5000" (some (.str "hello")) = .ok []) ∧
    (get_cameras "http://nvr.local:5000" (some (.arr [.num 1, .str "x"])) =
      .ok []) ∧
    (∃ info, processCamera "http://nvr.local:5000" "front_door"
        (.obj [("ffmpeg", .obj [("inputs",
          .arr [.obj [("path", .str "rtsp://127.0.0.1:8554/front_door")]])])]) =
        .ok info ∧
      info.enabled = .bool true ∧
      info.rtsp_url = some (.str "rtsp://127.0.0.1:8554/front_door")) := by
  have h := get_cameras_tolerant_defaults "http://nvr.local:5000"
  refine ⟨h.1, h.2.2.1 _ (by decide), h.2.2.2.1 "hello" (by decide),
    h.2.2.2.2.1 [.num 1, .str "x"] (by decide), ?_⟩
  refine ⟨{ name := "front_door", enabled := .bool true,
            mjpeg_url := "http://nvr.local:5000/api/front_door",
            snapshot_url := "http://nvr.local:5000/api/front_door/latest.jpg",
            rtsp_url := some (.str "rtsp://127.0.0.1:8554/front_door") }, rfl, ?_, ?_⟩
  · exact h.2.2.2.2.2.2.1 "front_door"
      [("ffmpeg", .obj [("inputs",
        .arr [.obj [("path", .str "rtsp://127.0.0.1:8554/front_door")]])])]
      _ rfl rfl
  · exact h.2.2.2.2.2.2.2.2 "front_door"
      [("ffmpeg", .obj [("inputs",
        .arr [.obj [("path", .str "rtsp://127.0.0.1:8554/front_door")]])])]
      [("inputs", .arr [.obj [("path", .str "rtsp://127.0.0.1:8554/front_door")]])]
      [("path", .str "rtsp://127.0.0.1:8554/front_door")]
      [] (.str "rtsp://127.0.0.1:8554/front_door") _ rfl rfl rfl rfl

/-- A non-empty replacement in a non-empty string never yields the empty
string. -/
lemma replaceGo_ne_nil {pat repl : List Char} {n : Nat} {c : Char}
    {cs : List Char} (hrepl : repl ≠ []) :
    replaceGo pat repl n (c :: cs) ≠ [] := by
  cases n with
  | zero => simp [replaceGo]
  | succ m =>
    rw [replaceGo]
    split
    · simp [hrepl]
    · simp

/-- A hostname produced by `parsedHostname` is never the empty string. -/
lemma parsedHostname_ne_empty {url h : String}
    (hh : parsedHostname url = some h) : h ≠ "" := by
  unfold parsedHostname at hh
  cases hs : splitOnce url "://" with
  | none => rw [hs] at hh; exact absurd hh (by simp)
  | some pr =>
    obtain ⟨pre, rest⟩ := pr
    rw [hs] at hh
    dsimp only at hh
    split at hh
    · exact absurd hh (by simp)
    · rw [Option.some.injEq] at hh
      intro hcon
      rw [← hh] at hcon
      have hmap : (_ : List Char).map Char.toLower = [] := congrArg String.data hcon
      rw [List.map_eq_nil_iff] at hmap
      simp_all [List.isEmpty_iff]

/-- Replacing a non-empty pattern in a non-empty string by a non-empty
replacement never yields the empty string. -/
lemma pyReplace_ne_empty {s pat repl : String} (hs : s ≠ "") (hrepl : repl ≠ "") :
    pyReplace s pat repl ≠ "" := by
  intro hcon
  have hd : (pyReplace s pat repl).data = [] := by rw [hcon]
  unfold pyReplace at hd
  cases hcs : s.data with
  | nil => exact hs (by cases s; simp_all)
  | cons c cs =>
    rw [hcs] at hd
    have hrne : repl.data ≠ [] := fun h0 => hrepl (by cases repl; simp_all)
    exact replaceGo_ne_nil hrne (by simpa using hd)

/-- C6: for a camera whose raw RTSP url contains `127.0.0.1` or `localhost`,
both `plugin.play_camera` and `FrigateScreensaver._get_stream_url` use, as
the playback stream URL, the RTSP url with every `127.0.0.1` occurrence and
then every `localhost` occurrence textually replaced by the hostname parsed
from the configured Frigate base URL. -/
theorem loopback_rewritten_to_frigate_host (frigate_url u host : String)
    (mjpeg : String) (mj : Option Json)
    (hsub : listContainsSub "127.0.0.1".data u.data = true ∨
            listContainsSub "localhost".data u.data = true)
    (hhost : parsedHostname frigate_url = some host) :
    play_camera_stream_url frigate_url (some (.str u)) mjpeg =
      .ok (some (pyReplace (pyReplace u "127.0.0.1" host) "localhost" host)) ∧
    screensaver_stream_url frigate_url (some (.str u)) mj =
      .ok (.str (pyReplace (pyReplace u "127.0.0.1" host) "localhost" host)) := by
  have hu : u ≠ "" := by
    intro hcon
    subst hcon
    simp [listContainsSub] at hsub
  have hhostne : host ≠ "" := parsedHostname_ne_empty hhost
  have hudata : u.data ≠ [] := fun hcon => hu (by cases u; simp_all)
  have hres : (pyReplace (pyReplace u "127.0.0.1" host) "localhost" host) ≠ "" :=
    pyReplace_ne_empty (pyReplace_ne_empty hu hhostne) hhostne
  constructor
  · simp only [play_camera_stream_url, pyTruthy, rewriteLoopback, hhost]
    rw [if_pos (by simpa using hu), if_pos (by simpa using hsub)]
  · simp only [screensaver_stream_url, Option.getD, pyContains, exBind_ok,
      rewriteLoopback, hhost, pyTruthy]
    rw [if_pos (by simpa using hu)]
    rcases hsub with hs | hs
    · simp [exBind, hs, pyTruthy, hres]
    · cases hc1 : listContainsSub "127.0.0.1".data u.data <;>
        simp [exBind, hc1, hs, pyContains, pyTruthy, hres]

/-- C6 witness: the spec's scenario — rtsp url
`rtsp://127.0.0.1:8554/front_door`, base url `http://nvr.local:5000` —
resolves, on both playback paths, to `rtsp://nvr.local:8554/front_door`. -/
theorem loopback_rewritten_to_frigate_host_witness :
    play_camera_stream_url "http://nvr.local:5000"
        (some (.str "rtsp://127.0.0.1:8554/front_door")) "" =
      .ok (some "rtsp://nvr.local:8554/front_door") ∧
    screensaver_stream_url "http://nvr.local:5000"
        (some (.str "rtsp://127.0.0.1:8554/front_door")) none =
      .ok (.str "rtsp://nvr.local:8554/front_door") := by
  have h := loopback_rewritten_to_frigate_host "http://nvr.local:5000"
    "rtsp://127.0.0.1:8554/front_door" "nvr.local" "" none
    (by decide) (by decide)
  have hrepl : pyReplace (pyReplace "rtsp://127.0.0.1:8554/front_door"
      "127.0.0.1" "nvr.local") "localhost" "nvr.local" =
      "rtsp://nvr.local:8554/front_door" := by decide
  exact ⟨by rw [h.1, hrepl], by rw [h.2, hrepl]⟩

/-- C4: the compositor's grid shape is the fixed lookup 1→1x1, 2→2x1,
3→3x1, 4→2x2, every larger count degrades to 2x2; the cell handed to each
scaled input is `1920 // cols` by `1080 // rows`; and with one camera per
view the compositor is bypassed — `_play_single_camera` leaves the encoder
and pipe state untouched, so no encoder process or pipe is ever created. -/
theorem grid_layout_and_single_camera_bypass (s : CompState) :
    gridShape 1 = (1, 1) ∧ gridShape 2 = (2, 1) ∧ gridShape 3 = (3, 1) ∧
    gridShape 4 = (2, 2) ∧ (∀ n, 5 ≤ n → gridShape n = (2, 2)) ∧
    cellSize 2 = (960, 1080) ∧ cellSize 3 = (640, 1080) ∧
    cellSize 4 = (960, 540) ∧
    (∀ a b c d e, initScreensaverPlayback 1 a b c d e s = [s]) := by
  refine ⟨rfl, rfl, rfl, rfl, ?_, rfl, rfl, rfl, ?_⟩
  · intro n hn
    unfold gridShape
    split_ifs <;> first | rfl | omega
  · intro a b c d e
    simp [initScreensaverPlayback]

/-- C4 witness: seven cameras per view degrade to the 2x2 grid, and the
single-camera path from a clean instance state performs no state change. -/
theorem grid_layout_and_single_camera_bypass_witness :
    gridShape 7 = (2, 2) ∧
    initScreensaverPlayback 1 true true true true true
      ⟨false, false, 0, 0⟩ = [⟨false, false, 0, 0⟩] := by
  have h := grid_layout_and_single_camera_bypass ⟨false, false, 0, 0⟩
  exact ⟨h.2.2.2.2.1 7 (by decide),
         h.2.2.2.2.2.2.2.2 true true true true true⟩

/-- C5: from any well-formed instance state, every state passed through by
`_start_ffmpeg` (which always runs `_stop_ffmpeg` first) and by
`_stop_ffmpeg` itself has at most one live encoder process and at most one
pipe; both calls return well-formed states (so a teardown immediately
followed by a new start keeps the bound at every point); and when the pipe
was created but the encoder spawn fails, the pipe is removed and no encoder
reference is left before `_start_ffmpeg` returns. -/
theorem compositor_encoder_pipe_exclusive (a b c d e : Bool) (s : CompState)
    (hwf : s.WF) :
    (∀ t ∈ startFfmpegTrace a b c d e s, t.procs ≤ 1 ∧ t.pipes ≤ 1) ∧
    (∀ t ∈ stopFfmpegTrace a s, t.procs ≤ 1 ∧ t.pipes ≤ 1) ∧
    (stopFfmpeg a s).WF ∧
    (startFfmpeg a b c d e s).WF ∧
    (b = true → d = true → e = false →
      (removePrevStep c (setPathStep (stopFfmpeg a s))).pipes = 0 →
      (startFfmpeg a b c d e s).pipes = 0 ∧
      (startFfmpeg a b c d e s).procRef = false) := by
  obtain ⟨pr, ps, procs, pipes⟩ := s
  obtain ⟨hp, hq⟩ := hwf
  simp only [CompState.WF] at hp hq
  cases pr <;> simp at hp <;> subst hp <;>
    interval_cases pipes <;>
    cases ps <;> cases a <;> cases b <;> cases c <;> cases d <;> cases e <;>
    decide

/-- C5 witness: from the state with one live encoder and one pipe (a
composition already running), a restart with all calls succeeding never
exceeds one encoder and one pipe at any traced point, and a restart whose
encoder spawn fails ends with the pipe removed. -/
theorem compositor_encoder_pipe_exclusive_witness :
    ((true : Bool) = true → (true : Bool) = true → (false : Bool) = false →
      (removePrevStep true (setPathStep (stopFfmpeg true ⟨true, true, 1, 1⟩))).pipes = 0 →
      (startFfmpeg true true true true false ⟨true, true, 1, 1⟩).pipes = 0 ∧
      (startFfmpeg true true true true false ⟨true, true, 1, 1⟩).procRef = false) ∧
    (∀ t ∈ startFfmpegTrace true true true true true ⟨true, true, 1, 1⟩,
      t.procs ≤ 1 ∧ t.pipes ≤ 1) ∧
    (startFfmpeg true true true true false ⟨true, true, 1, 1⟩).pipes = 0 := by
  have h1 := compositor_encoder_pipe_exclusive true true true true false
    ⟨true, true, 1, 1⟩ (by decide)
  have h2 := compositor_encoder_pipe_exclusive true true true true true
    ⟨true, true, 1, 1⟩ (by decide)
  exact ⟨h1.2.2.2.2, h2.1,
         (h1.2.2.2.2 rfl rfl rfl (by decide)).1⟩

/-- C2: a trigger invocation that finds the camera's heartbeat file already
present overwrites it (one more write) and returns without creating a second
session; hence N ≥ 1 requests within the freshness window with no
intervening termination leave exactly one active session, a present
heartbeat file — the single lock path per camera id — and N heartbeat
writes. -/
theorem overlay_request_idempotent (s : OverlaySessions) (w : Bool) :
    (s.lockPresent = true → requestDisplay true w s =
      { s with writes := s.writes + 1 }) ∧
    (∀ N, 1 ≤ N →
      (requestDisplay true true)^[N] ⟨0, false, 0⟩ = ⟨1, true, N⟩) := by
  constructor
  · intro h
    simp [requestDisplay, h]
  · intro N hN
    obtain ⟨n, rfl⟩ : ∃ n, N = n + 1 := ⟨N - 1, by omega⟩
    induction n with
    | zero => simp [requestDisplay]
    | succ m ih =>
      rw [Function.iterate_succ_apply', ih (by omega)]
      simp [requestDisplay]

/-- C2 witness: three requests starting with no session give one session,
a live heartbeat and three writes; a fourth with the lock present refreshes
only. -/
theorem overlay_request_idempotent_witness :
    (requestDisplay true true)^[3] ⟨0, false, 0⟩ = ⟨1, true, 3⟩ ∧
    requestDisplay true true ⟨1, true, 3⟩ = ⟨1, true, 4⟩ := by
  have h := overlay_request_idempotent ⟨1, true, 3⟩ true
  exact ⟨h.2 3 (by omega), h.1 rfl⟩

/-- C7 counterexample: with a stale heartbeat file present for a camera that
is no longer in the discovered set, the trigger exits 0 (successful
extension) although the claim requires exit code 1 for a camera absent from
the discovered set. -/
theorem display_trigger_stale_lock_exits_zero :
    displayTriggerExitCode (some "ghost") true true ["front_door"] = 0 ∧
    (["front_door"].contains "ghost") = false := by
  constructor <;> rfl

/-- C7 (amended): the display trigger exits 1 when no camera argument is
supplied; it exits 1 when the named camera is not in the discovered set and
no heartbeat extension took place; it exits 0 after successfully extending
an existing overlay's heartbeat — even when the camera is not in the
discovered set, since that path exits before discovery — and it exits 0
when the camera is found and the session runs to completion. -/
theorem display_trigger_exit_codes (lockExists lockWriteOk : Bool)
    (cameras : List String) (cam : String) :
    (displayTriggerExitCode none lockExists lockWriteOk cameras = 1) ∧
    (lockExists = true → lockWriteOk = true →
      displayTriggerExitCode (some cam) lockExists lockWriteOk cameras = 0) ∧
    (cameras.contains cam = false → (lockExists && lockWriteOk) = false →
      displayTriggerExitCode (some cam) lockExists lockWriteOk cameras = 1) ∧
    (cameras.contains cam = true →
      displayTriggerExitCode (some cam) lockExists lockWriteOk cameras = 0) := by
  refine ⟨rfl, ?_, ?_, ?_⟩
  · intro h1 h2
    unfold displayTriggerExitCode
    dsimp only
    rw [h1, h2]
    rfl
  · intro h1 h2
    unfold displayTriggerExitCode
    dsimp only
    rw [h2, h1]
    rfl
  · intro h1
    unfold displayTriggerExitCode
    dsimp only
    rw [h1]
    cases hl : lockExists && lockWriteOk <;> rfl

/-- C7 witness: no argument exits 1; extension of a present lock exits 0;
an unknown camera with no lock exits 1; a discovered camera exits 0. -/
theorem display_trigger_exit_codes_witness :
    displayTriggerExitCode none false true ["front_door"] = 1 ∧
    displayTriggerExitCode (some "front_door") true true ["front_door"] = 0 ∧
    displayTriggerExitCode (some "ghost") false true ["front_door"] = 1 ∧
    displayTriggerExitCode (some "front_door") false true ["front_door"] = 0 := by
  refine ⟨(display_trigger_exit_codes false true ["front_door"] "front_door").1,
    (display_trigger_exit_codes true true ["front_door"] "front_door").2.1 rfl rfl,
    (display_trigger_exit_codes false true ["front_door"] "ghost").2.2.1
      (by decide) rfl,
    (display_trigger_exit_codes false true ["front_door"] "front_door").2.2.2
      (by decide)⟩

/-- The once-per-second check either keeps the elapsed-time origin or resets
it to the current time. -/
lemma checkStep_startTime (now : ℚ) (o : LoopObs) (st : LoopState) :
    (checkStep now o st).startTime = st.startTime ∨
    (checkStep now o st).startTime = now := by
  unfold checkStep
  split_ifs
  · cases o.lock with
    | none => left; rfl
    | some lt => dsimp only; split_ifs <;> simp
  · left; rfl

/-- If the run loop exits with duration expiry and the elapsed-time origin
never drops below `T` (where `T` is at or before the current wall clock),
then the expiry happens strictly later than `T` plus the duration. -/
lemma runLoop_expired_after {duration t0 T : ℚ} {obs : Nat → LoopObs} :
    ∀ (fuel k : Nat) (st : LoopState) (j : Nat),
      T ≤ t0 + (k : ℚ) / 2 → T ≤ st.startTime →
      runLoop true duration t0 obs fuel k st = .exited j .expired →
      T + duration / 1000 < t0 + (j : ℚ) / 2 := by
  intro fuel
  induction fuel with
  | zero =>
    intro k st j hk hst h
    simp [runLoop] at h
  | succ n ih =>
    intro k st j hk hst h
    rw [runLoop] at h
    cases hstep : loopStep true duration (t0 + (k : ℚ) / 2) (obs k) st with
    | exit r =>
      rw [hstep] at h
      cases h
      unfold loopStep at hstep
      split_ifs at hstep with hc hr
      · simp at hstep
      · unfold loopCond at hc
        rw [not_or, not_le] at hc
        have hd : duration / 1000 < t0 + (k : ℚ) / 2 - st.startTime := by
          rw [div_lt_iff₀ (by norm_num : (0:ℚ) < 1000)]
          linarith [hc.2]
        linarith
    | next st1 =>
      rw [hstep] at h
      refine ih (k + 1) st1 j ?_ ?_ h
      · push_cast
        linarith
      · unfold loopStep at hstep
        split_ifs at hstep with hc hr
        rw [LoopStepResult.next.injEq] at hstep
        rw [← hstep]
        rcases checkStep_startTime (t0 + (k : ℚ) / 2) (obs k) st with hs | hs
        · rw [hs]
          exact hst
        · rw [hs]
          exact hk

/-- With autoClose disabled the loop condition always holds, so the loop can
only exit through the explicit `isRunning` check. -/
lemma runLoop_noautoclose_stopped {duration t0 : ℚ} {obs : Nat → LoopObs} :
    ∀ fuel k st j r, runLoop false duration t0 obs fuel k st = .exited j r →
      r = .stopped ∧ (obs j).running = false := by
  intro fuel
  induction fuel with
  | zero =>
    intro k st j r h
    simp [runLoop] at h
  | succ n ih =>
    intro k st j r h
    rw [runLoop] at h
    revert h
    unfold loopStep
    split_ifs with hc hr
    · intro h
      cases h
      exact ⟨rfl, hr⟩
    · intro h
      exact ih (k + 1) _ j r h
    · intro h
      exfalso
      apply hc
      unfold loopCond
      exact Or.inl rfl

/-- C3: (i) when the lifetime loop's once-per-second check observes a
heartbeat timestamp less than 2 seconds old, it resets the elapsed-time
origin to the current time; (ii) whenever the origin stays at or above a
time `T`, a duration expiry can only happen strictly after `T + D/1000`
seconds — applied to the reset of (i) this pushes the termination time past
refresh-time + D; (iii) an unrefreshed session never expires before
start + D; (iv) with autoClose disabled, the loop only ever exits because
`isRunning` was set to false — an explicit stop — never by expiry. -/
theorem overlay_duration_extension_law (duration t0 : ℚ) (obs : Nat → LoopObs) :
    (∀ (k : Nat) (st : LoopState) (lockTime : ℚ), obs k = ⟨true, some lockTime⟩ →
      1 ≤ t0 + (k : ℚ) / 2 - st.lastCheck →
      t0 + (k : ℚ) / 2 - lockTime < 2 →
      (checkStep (t0 + (k : ℚ) / 2) (obs k) st).startTime = t0 + (k : ℚ) / 2) ∧
    (∀ (T : ℚ) (fuel k : Nat) (st : LoopState) (j : Nat),
      T ≤ t0 + (k : ℚ) / 2 → T ≤ st.startTime →
      runLoop true duration t0 obs fuel k st = .exited j .expired →
      T + duration / 1000 < t0 + (j : ℚ) / 2) ∧
    (∀ fuel j, startRunLoop true duration t0 obs fuel = .exited j .expired →
      t0 + duration / 1000 < t0 + (j : ℚ) / 2) ∧
    (∀ fuel j r, startRunLoop false duration t0 obs fuel = .exited j r →
      r = .stopped ∧ (obs j).running = false) := by
  refine ⟨?_, ?_, ?_, ?_⟩
  · intro k st lockTime hobs hchk hfresh
    rw [hobs]
    unfold checkStep
    rw [if_pos (by linarith)]
    dsimp only
    rw [if_pos (by linarith)]
  · intro T fuel k st j hk hst h
    exact runLoop_expired_after fuel k st j hk hst h
  · intro fuel j h
    have := @runLoop_expired_after duration t0 t0 obs fuel 0
      { startTime := t0, lastCheck := t0 } j (by norm_num) le_rfl h
    linarith
  · intro fuel j r h
    rw [startRunLoop] at h
    exact runLoop_noautoclose_stopped fuel 0 _ j r h

/-- C3 witness: with duration 500 ms and start time 0, a check at wall time
1 that sees a heartbeat from time 1/2 resets the origin to 1; a session with
no heartbeat expires at iteration 2 (wall time 1), strictly after
start + 500 ms = 1/2; and with autoClose off, a run whose `isRunning` drops
after the first iteration exits as stopped, never expired. -/
theorem overlay_duration_extension_law_witness :
    ((checkStep (0 + ((2 : ℕ) : ℚ) / 2) ⟨true, some (1 / 2)⟩ ⟨0, 0⟩).startTime =
      0 + ((2 : ℕ) : ℚ) / 2) ∧
    ((0 : ℚ) + 500 / 1000 < 0 + ((2 : ℕ) : ℚ) / 2) ∧
    (LoopExit.stopped = LoopExit.stopped ∧
      (LoopObs.mk (decide ((1 : ℕ) = 0)) none).running = false) := by
  have h1 := overlay_duration_extension_law 500 0
    (fun _ => (⟨true, some (1 / 2)⟩ : LoopObs))
  have h2 := overlay_duration_extension_law 500 0
    (fun _ => (⟨true, none⟩ : LoopObs))
  have h3 := overlay_duration_extension_law 500 0
    (fun k => (⟨decide (k = 0), none⟩ : LoopObs))
  refine ⟨h1.1 2 ⟨0, 0⟩ (1 / 2) rfl (by norm_num) (by norm_num), ?_, ?_⟩
  · exact h2.2.2.1 3 2
      (by norm_num [startRunLoop, runLoop, loopStep, loopCond, checkStep])
  · exact h3.2.2.2 2 1 .stopped
      (by norm_num [startRunLoop, runLoop, loopStep, loopCond, checkStep])

/-- C9 counterexample: clearing the MQTT host is a connection-key change;
the service stops the existing listener but — contrary to the claim that a
new one "is created instead" — creates nothing, because recreation is
guarded by `if current_settings['mqtt_host']`. -/
theorem reconcile_host_cleared_stops_without_recreate :
    reconcileMqtt
      ⟨"http://nvr:5000", "", "", "broker", 1883, "", "", "frigate",
        "person", 70, true, ""⟩
      ⟨"http://nvr:5000", "", "", "", 1883, "", "", "frigate",
        "person", 70, true, ""⟩
      (some ⟨3, "broker", 1883, none, none, "frigate", ⟨[], 0, true, []⟩⟩) 7 =
      (none, [.stopListener 3]) ∧
    (∀ g, MqttAction.createListener g ∉ ([.stopListener 3] : List MqttAction)) := by
  refine ⟨rfl, ?_⟩
  intro g hg
  simp at hg

/-- C9 (amended): when a settings poll finds a filter key changed and no
connection key changed, the live listener gets `set_filters` applied in
place — same object, same broker connection, no stop and no recreation;
when a connection key changed, the existing listener is stopped and a fresh
one is created provided the new MQTT host is non-empty; with the host
cleared, the listener is stopped and none is created. -/
theorem service_reconcile_policy (old new : Settings) (l : Listener) (g : Nat) :
    (filterSettingsChanged old new = true → mqttConnectionChanged old new = false →
      reconcileMqtt old new (some l) g =
        (some { l with filters := filtersOfSettings new }, [.setFiltersOn l.gen])) ∧
    (mqttConnectionChanged old new = true → new.mqtt_host ≠ "" →
      reconcileMqtt old new (some l) g =
        (some (initListener g new), [.stopListener l.gen, .createListener g])) ∧
    (mqttConnectionChanged old new = true → new.mqtt_host = "" →
      reconcileMqtt old new (some l) g = (none, [.stopListener l.gen])) := by
  refine ⟨?_, ?_, ?_⟩
  · intro hf hc
    simp [reconcileMqtt, settingsChanged, hf, hc]
  · intro hc hh
    simp [reconcileMqtt, settingsChanged, hc, hh]
  · intro hc hh
    simp [reconcileMqtt, settingsChanged, hc, hh]

/-- C9 witness: changing only `trigger_objects` hot-swaps the filters on the
live listener object (same generation 3, one `set_filters` action); changing
the host to another non-empty value stops listener 3 and creates listener 9. -/
theorem service_reconcile_policy_witness :
    reconcileMqtt
      ⟨"http://nvr:5000", "", "", "broker", 1883, "", "", "frigate",
        "person", 70, true, ""⟩
      ⟨"http://nvr:5000", "", "", "broker", 1883, "", "", "frigate",
        "person,car", 70, true, ""⟩
      (some ⟨3, "broker", 1883, none, none, "frigate", ⟨[], 0, true, []⟩⟩) 9 =
      (some ⟨3, "broker", 1883, none, none, "frigate",
        filtersOfSettings ⟨"http://nvr:5000", "", "", "broker", 1883, "", "",
          "frigate", "person,car", 70, true, ""⟩⟩,
       [.setFiltersOn 3]) ∧
    reconcileMqtt
      ⟨"http://nvr:5000", "", "", "broker", 1883, "", "", "frigate",
        "person", 70, true, ""⟩
      ⟨"http://nvr:5000", "", "", "broker2", 1883, "", "", "frigate",
        "person", 70, true, ""⟩
      (some ⟨3, "broker", 1883, none, none, "frigate", ⟨[], 0, true, []⟩⟩) 9 =
      (some (initListener 9 ⟨"http://nvr:5000", "", "", "broker2", 1883, "", "",
        "frigate", "person", 70, true, ""⟩),
       [.stopListener 3, .createListener 9]) := by
  constructor
  · exact (service_reconcile_policy _ _
      ⟨3, "broker", 1883, none, none, "frigate", ⟨[], 0, true, []⟩⟩ 9).1
      (by decide) (by decide)
  · exact (service_reconcile_policy _ _
      ⟨3, "broker", 1883, none, none, "frigate", ⟨[], 0, true, []⟩⟩ 9).2.1
      (by decide) (by decide)

end KodiFrigate
